import Mathlib

/-!
Shallow embedding of `src/banking-system/src/database.rs`.

The Rust program stores accounts in a single SQLite table
`account(id INTEGER PRIMARY KEY AUTOINCREMENT, account_number TEXT,
pin TEXT, balance INTEGER)` and performs every operation through ad hoc
SQL statements in auto-commit mode.  We model the table as a list of
rows (in rowid order), the SQLite INTEGER balance column as an
unbounded `Int` (the store's integer arithmetic is treated as exact),
and each Rust function as a pure function from the bank state to a new
bank state paired with an outcome.  `rusqlite`'s `query_row` returning
the first matching row, `UPDATE`/`DELETE` touching every matching row,
and the text-to-integer coercion SQLite applies to a TEXT parameter
used in integer arithmetic are modelled explicitly.  A Rust panic
(`expect`) is the `panicked` outcome.  The two `db.execute` calls
inside `transfer` run as separate auto-committing statements; to reason
about partial failure we give `transfer` a fault parameter saying
whether each of the two UPDATE statements fails (an execute that fails
leaves everything previously committed in place, and the `?` operator
propagates the error).
-/

namespace Banking

/-- A row of the SQLite `account` table (fields in column order). -/
structure Row where
  id : Nat
  account_number : String
  pin : String
  balance : Int
deriving DecidableEq

/-- The whole store: rows in rowid order plus the AUTOINCREMENT counter. -/
structure Bank where
  rows : List Row
  nextId : Nat
deriving DecidableEq

/-- The Rust `Account` struct (`database.rs`, lines 6-12): `balance` is `u64`. -/
structure Account where
  id : Nat
  account_number : String
  balance : Nat
  pin : String
deriving DecidableEq

/-- The `rusqlite` errors the embedded code can produce:
`QueryReturnedNoRows` (the program's universal error value) and the
conversion failure raised when a negative SQLite INTEGER is read into a
Rust `u64`. -/
inductive RusqliteError
  | queryReturnedNoRows
  | integralValueOutOfRange
deriving DecidableEq

/-- Outcome of running one Rust function: normal return, error return,
or a panic with the `expect` message. -/
inductive Outcome (α : Type)
  | ok : α → Outcome α
  | err : RusqliteError → Outcome α
  | panicked : String → Outcome α
deriving DecidableEq

/-- Whether an outcome is an error return. -/
def Outcome.isErr {α : Type} : Outcome α → Bool
  | .err _ => true
  | _ => false

instance {ε α : Type} [DecidableEq ε] [DecidableEq α] : DecidableEq (Except ε α) := fun x y =>
  match x, y with
  | .ok a, .ok b =>
    if h : a = b then .isTrue (by rw [h]) else .isFalse (fun hc => h (Except.ok.inj hc))
  | .error a, .error b =>
    if h : a = b then .isTrue (by rw [h]) else .isFalse (fun hc => h (Except.error.inj hc))
  | .ok _, .error _ => .isFalse (fun hc => Except.noConfusion hc)
  | .error _, .ok _ => .isFalse (fun hc => Except.noConfusion hc)

/-- `SELECT ... WHERE account_number = a` via `query_row`/`query_map.next()`:
the first matching row in rowid order. -/
def firstRow (b : Bank) (a : String) : Option Row :=
  b.rows.find? (fun r => r.account_number == a)

/-- `UPDATE account SET balance = ... WHERE account_number = a`:
rewrites the balance of every matching row. -/
def updateRows (b : Bank) (a : String) (f : Int → Int) : Bank :=
  ⟨b.rows.map (fun r => if r.account_number == a then ⟨r.id, r.account_number, r.pin, f r.balance⟩ else r),
   b.nextId⟩

/-- `DELETE FROM account WHERE account_number = a`: removes every matching row. -/
def deleteRows (b : Bank) (a : String) : Bank :=
  ⟨b.rows.filter (fun r => !(r.account_number == a)), b.nextId⟩

/-- Reading an SQLite INTEGER column into a Rust `u64` (`row.get::<_, u64>`):
fails on a negative value. -/
def readU64 (v : Int) : Except RusqliteError Nat :=
  if 0 ≤ v then .ok v.toNat else .error .integralValueOutOfRange

/-- Value of the longest decimal-digit prefix, accumulator style. -/
def digitsVal : List Char → Nat → Nat
  | c :: cs, acc => if c.isDigit then digitsVal cs (10 * acc + (c.toNat - 48)) else acc
  | [], acc => acc

/-- SQLite's coercion of a TEXT value used in integer arithmetic
(`balance + ?1` with a text parameter): skip leading spaces, an optional
sign, then the longest digit prefix; a string with no numeric prefix
coerces to 0. -/
def sqliteTextToInt (s : String) : Int :=
  match s.data.dropWhile (fun c => c == ' ') with
  | [] => 0
  | c :: rest =>
    if c == '-' then -(digitsVal rest 0 : Int)
    else if c == '+' then (digitsVal rest 0 : Int)
    else (digitsVal (c :: rest) 0 : Int)

/-- Rust's `str::parse::<u64>`: an optional leading '+', then one or
more decimal digits, value within the `u64` range; anything else fails. -/
def parseU64 (s : String) : Option Nat :=
  let cs := match s.data with
    | [] => ([] : List Char)
    | c :: rest => if c == '+' then rest else c :: rest
  if cs ≠ [] ∧ cs.all Char.isDigit = true then
    if digitsVal cs 0 < 2 ^ 64 then some (digitsVal cs 0) else none
  else none

/-- Embedding of `deposit` (`database.rs`, lines 71-103).  The pin
SELECT runs first (error if the account is absent); on a wrong pin the
function prints a warning and returns `Ok(())`; otherwise the raw
amount string goes into `UPDATE account SET balance = balance + ?1`
(SQLite text coercion), and the new balance is then read back as `u64`
for printing. -/
def deposit (b : Bank) (amount pin account_number : String) : Bank × Outcome Unit :=
  match firstRow b account_number with
  | none => (b, .err .queryReturnedNoRows)
  | some row =>
    if row.pin == pin then
      let b' := updateRows b account_number (fun bal => bal + sqliteTextToInt amount)
      match firstRow b' account_number with
      | none => (b', .err .queryReturnedNoRows)
      | some row' =>
        match readU64 row'.balance with
        | .ok _ => (b', .ok ())
        | .error e => (b', .err e)
    else
      (b, .ok ())

/-- Embedding of `fetch_account` (`database.rs`, lines 244-261): first
matching row, its balance read into `u64`. -/
def fetch_account (b : Bank) (account : String) : Except RusqliteError Account :=
  match firstRow b account with
  | none => .error .queryReturnedNoRows
  | some r =>
    match readU64 r.balance with
    | .error e => .error e
    | .ok bal => .ok ⟨r.id, r.account_number, bal, r.pin⟩

/-- Fault injection for the two UPDATE statements inside `transfer`:
each auto-committing `db.execute` may fail (store fault); a failing
execute changes nothing itself but everything already committed stays. -/
structure Faults where
  creditFails : Bool
  debitFails : Bool
deriving DecidableEq

/-- The fault-free run. -/
def noFaults : Faults := ⟨false, false⟩

/-- Embedding of `transfer` (`database.rs`, lines 104-150), with fault
injection on its two UPDATE statements.  Same-account check, two
fetches, pin check against the origin, `parse::<u64>` with `map_err`,
insufficient-funds check; then credit the target and debit the origin
as two separate auto-committing statements; finally refetch both. -/
def transferF (fl : Faults) (b : Bank) (amount pin origin_account target_account : String) :
    Bank × Outcome (Account × Account) :=
  if origin_account == target_account then
    (b, .err .queryReturnedNoRows)
  else
    match fetch_account b origin_account with
    | .error e => (b, .err e)
    | .ok origin =>
      match fetch_account b target_account with
      | .error e => (b, .err e)
      | .ok target =>
        if origin.pin == pin then
          match parseU64 amount with
          | none => (b, .err .queryReturnedNoRows)
          | some amt =>
            if amt > origin.balance then
              (b, .err .queryReturnedNoRows)
            else
              if fl.creditFails then (b, .err .queryReturnedNoRows)
              else
                if fl.debitFails then
                  (updateRows b target.account_number (fun bal => bal + (amt : Int)),
                   .err .queryReturnedNoRows)
                else
                  match fetch_account
                      (updateRows (updateRows b target.account_number (fun bal => bal + (amt : Int)))
                        origin.account_number (fun bal => bal - (amt : Int)))
                      origin.account_number with
                  | .error e =>
                    (updateRows (updateRows b target.account_number (fun bal => bal + (amt : Int)))
                       origin.account_number (fun bal => bal - (amt : Int)), .err e)
                  | .ok oA =>
                    match fetch_account
                        (updateRows (updateRows b target.account_number (fun bal => bal + (amt : Int)))
                          origin.account_number (fun bal => bal - (amt : Int)))
                        target.account_number with
                    | .error e =>
                      (updateRows (updateRows b target.account_number (fun bal => bal + (amt : Int)))
                         origin.account_number (fun bal => bal - (amt : Int)), .err e)
                    | .ok tA =>
                      (updateRows (updateRows b target.account_number (fun bal => bal + (amt : Int)))
                         origin.account_number (fun bal => bal - (amt : Int)), .ok (oA, tA))
        else (b, .err .queryReturnedNoRows)

/-- `transfer` as the program runs it: both UPDATE statements succeed. -/
def transfer (b : Bank) (amount pin origin_account target_account : String) :
    Bank × Outcome (Account × Account) :=
  transferF noFaults b amount pin origin_account target_account

/-- Embedding of `withdraw` (`database.rs`, lines 153-207): pin SELECT,
wrong pin prints and returns `Ok(())`; balance SELECT as `u64`; then
`amount.parse::<u64>().expect(...)` — a panic on parse failure; the
insufficient-funds branch prints and returns `Ok(())`; otherwise the
balance UPDATE runs and the new balance is read back for printing. -/
def withdraw (b : Bank) (amount pin account_number : String) : Bank × Outcome Unit :=
  match firstRow b account_number with
  | none => (b, .err .queryReturnedNoRows)
  | some row =>
    if row.pin == pin then
      match readU64 row.balance with
      | .error e => (b, .err e)
      | .ok amount_from_db =>
        match parseU64 amount with
        | none => (b, .panicked "Not able to parse string to u64")
        | some amt =>
          if amt > amount_from_db then (b, .ok ())
          else
            let b' := updateRows b account_number (fun bal => bal - (amt : Int))
            match firstRow b' account_number with
            | none => (b', .err .queryReturnedNoRows)
            | some row' =>
              match readU64 row'.balance with
              | .error e => (b', .err e)
              | .ok _ => (b', .ok ())
    else (b, .ok ())

/-- Embedding of `delete_account` (`database.rs`, lines 208-228): pin
SELECT, wrong pin prints and returns `Ok(())`; otherwise the DELETE
statement removes every matching row. -/
def delete_account (b : Bank) (account_number pin : String) : Bank × Outcome Unit :=
  match firstRow b account_number with
  | none => (b, .err .queryReturnedNoRows)
  | some row =>
    if row.pin == pin then (deleteRows b account_number, .ok ())
    else (b, .ok ())

/-- The random 6-digit PIN of `create_account` (`database.rs`, lines
49-53): six draws of `rng.gen_range(0..=9)`, each rendered with
`to_string` and joined with the empty separator.  The RNG is modelled
as the sequence of its six draws. -/
def genPin (rng : Fin 6 → Fin 10) : String :=
  String.join ((List.finRange 6).map (fun i => toString (rng i).val))

/-- Embedding of `create_account` (`database.rs`, lines 45-68): derive
the pin, INSERT the row (the balance is bound as its exact decimal
string, which the INTEGER column stores back as the same number), read
`last_insert_rowid`, and return the assembled `Account`. -/
def create_account (rng : Fin 6 → Fin 10) (data : String) (balance : Nat) (b : Bank) :
    Bank × Account :=
  let pin := genPin rng
  let id := b.nextId
  (⟨b.rows ++ [⟨id, data, pin, (balance : Int)⟩], id + 1⟩, ⟨id, data, balance, pin⟩)

/-- `Account::new` (`database.rs`, lines 14-20): `create_account` with
initial balance 0. -/
def Account.new (rng : Fin 6 → Fin 10) (data : String) (b : Bank) : Bank × Account :=
  create_account rng data 0 b

/-- A two-account store used for concrete runs: account "A" (pin
"111111", balance 500) and account "B" (pin "222222", balance 100). -/
def bankAB : Bank := ⟨[⟨1, "A", "111111", 500⟩, ⟨2, "B", "222222", 100⟩], 3⟩

/-- A one-account store whose balance is the largest SQLite INTEGER
(`i64::MAX`), used to exercise deposits past the representable range. -/
def bankBig : Bank := ⟨[⟨1, "A", "111111", 9223372036854775807⟩], 2⟩

lemma firstRow_number {b : Bank} {a : String} {r : Row} (h : firstRow b a = some r) :
    r.account_number = a := by
  have hp := List.find?_some h
  simpa using hp

lemma firstRow_updateRows (b : Bank) (a a' : String) (f : Int → Int) :
    firstRow (updateRows b a f) a' =
      (firstRow b a').map
        (fun r => if r.account_number == a then ⟨r.id, r.account_number, r.pin, f r.balance⟩ else r) := by
  unfold firstRow updateRows
  rw [List.find?_map]
  have hp : ((fun r => r.account_number == a') ∘
        (fun r : Row =>
          if (r.account_number == a) = true then ⟨r.id, r.account_number, r.pin, f r.balance⟩ else r))
      = (fun r : Row => r.account_number == a') := by
    funext r
    by_cases h : (r.account_number == a) = true <;> simp [Function.comp, h]
  rw [hp]

lemma firstRow_deleteRows (b : Bank) (a : String) :
    firstRow (deleteRows b a) a = none := by
  unfold firstRow deleteRows
  rw [List.find?_eq_none]
  intro r hr
  have hm := (List.mem_filter.mp hr).2
  simpa using hm

lemma fetch_account_some {b : Bank} {a : String} {r : Row}
    (hr : firstRow b a = some r) (h0 : 0 ≤ r.balance) :
    fetch_account b a = .ok ⟨r.id, a, r.balance.toNat, r.pin⟩ := by
  unfold fetch_account readU64
  rw [hr]
  dsimp only
  rw [if_pos h0]
  dsimp only
  rw [firstRow_number hr]

lemma fetch_account_ok {b : Bank} {a : String} {acc : Account}
    (h : fetch_account b a = .ok acc) :
    ∃ r, firstRow b a = some r ∧ 0 ≤ r.balance ∧ acc = ⟨r.id, a, r.balance.toNat, r.pin⟩ := by
  unfold fetch_account readU64 at h
  cases hr : firstRow b a with
  | none => rw [hr] at h; simp at h
  | some r =>
    rw [hr] at h
    dsimp only at h
    by_cases h0 : 0 ≤ r.balance
    · rw [if_pos h0] at h
      dsimp only at h
      simp only [Except.ok.injEq] at h
      exact ⟨r, rfl, h0, by rw [← h, firstRow_number hr]⟩
    · rw [if_neg h0] at h
      simp at h

lemma isDigit_beq_false {c d : Char} (h : c.isDigit = true) (hd : d.isDigit = false) :
    (c == d) = false := by
  by_contra hc
  rw [Bool.not_eq_false, beq_iff_eq] at hc
  subst hc
  rw [h] at hd
  exact Bool.noConfusion hd

/-- A string accepted by `parse::<u64>` coerces in SQLite to the same value. -/
lemma parseU64_eq_coerce {s : String} {a : Nat} (h : parseU64 s = some a) :
    sqliteTextToInt s = (a : Int) := by
  unfold parseU64 at h
  cases hs : s.data with
  | nil => rw [hs] at h; simp at h
  | cons c rest =>
    rw [hs] at h
    dsimp only at h
    unfold sqliteTextToInt
    rw [hs]
    by_cases hplus : (c == '+') = true
    · rw [if_pos hplus] at h
      have hc : c = '+' := beq_iff_eq.mp hplus
      subst hc
      split at h
      · split at h
        · simp only [Option.some.injEq] at h
          simp [List.dropWhile_cons, h, show ((' ' : Char).isDigit) = false by decide,
            show ((('+' : Char)) == ' ') = false by decide,
            show ((('+' : Char)) == '-') = false by decide,
            show ((('+' : Char)) == '+') = true by decide]
        · exact Option.noConfusion h
      · exact Option.noConfusion h
    · rw [Bool.not_eq_true] at hplus
      have hplus' : ¬((c == '+') = true) := by simp [hplus]
      rw [if_neg hplus'] at h
      split at h
      · next hcond =>
        have hdig : c.isDigit = true := by
          have hall := hcond.2
          simp only [List.all_cons, Bool.and_eq_true] at hall
          exact hall.1
        have hspace : (c == ' ') = false :=
          isDigit_beq_false hdig (show ((' ' : Char).isDigit) = false by decide)
        have hminus : (c == '-') = false :=
          isDigit_beq_false hdig (show ((('-' : Char)).isDigit) = false by decide)
        split at h
        · simp only [Option.some.injEq] at h
          simp [List.dropWhile_cons, hspace, hminus, hplus, h]
        · exact Option.noConfusion h
      · next => exact Option.noConfusion h

lemma foldl_append_length (l : List String) :
    ∀ s : String, (l.foldl (fun r t => r ++ t) s).length = s.length + (l.map String.length).sum := by
  induction l with
  | nil => intro s; simp
  | cons x xs ih =>
    intro s
    rw [List.foldl_cons, ih, String.length_append]
    simp
    omega

lemma join_length (l : List String) : (String.join l).length = (l.map String.length).sum := by
  unfold String.join
  rw [foldl_append_length]
  simp

lemma foldl_append_all (P : Char → Bool) (l : List String) :
    ∀ s : String, s.data.all P = true → (∀ t ∈ l, t.data.all P = true) →
      ((l.foldl (fun r t => r ++ t) s).data.all P) = true := by
  induction l with
  | nil => intro s hs _; simpa using hs
  | cons x xs ih =>
    intro s hs hl
    rw [List.foldl_cons]
    refine ih (s ++ x) ?_ (fun t ht => hl t (List.mem_cons_of_mem _ ht))
    rw [String.data_append, List.all_append, hs, hl x (List.mem_cons_self x xs)]
    rfl

lemma digit_toString_facts :
    ∀ d : Fin 10, (toString d.val).length = 1 ∧ (toString d.val).data.all Char.isDigit = true := by
  decide

lemma genPin_length (rng : Fin 6 → Fin 10) : (genPin rng).length = 6 := by
  unfold genPin
  rw [join_length]
  have h : ∀ i : Fin 6, (toString (rng i).val).length = 1 :=
    fun i => (digit_toString_facts (rng i)).1
  rw [show List.finRange 6 = [0, 1, 2, 3, 4, 5] by decide]
  simp [h]

lemma genPin_digits (rng : Fin 6 → Fin 10) : (genPin rng).data.all Char.isDigit = true := by
  unfold genPin String.join
  refine foldl_append_all Char.isDigit _ "" rfl ?_
  intro t ht
  simp only [List.mem_map] at ht
  obtain ⟨i, _, rfl⟩ := ht
  exact (digit_toString_facts (rng i)).2

/-- Deposit on an existing account with the correct pin: the raw amount
string reaches the store, is coerced, and is added to every matching
row; the call reports success as long as the new balance still reads
back as a `u64`. -/
lemma deposit_correct_pin (b : Bank) (amount pin acct : String) (row : Row)
    (hrow : firstRow b acct = some row) (hpin : row.pin = pin)
    (hnn : 0 ≤ row.balance + sqliteTextToInt amount) :
    deposit b amount pin acct
      = (updateRows b acct (fun bal => bal + sqliteTextToInt amount), .ok ()) := by
  unfold deposit
  rw [hrow]
  dsimp only
  rw [if_pos (show (row.pin == pin) = true by simp [hpin])]
  rw [firstRow_updateRows, hrow]
  dsimp only [Option.map]
  rw [if_pos (show (row.account_number == acct) = true by simp [firstRow_number hrow])]
  dsimp only
  unfold readU64
  rw [if_pos hnn]

/-- Claim C1, the code evaluated at the failing input: in `bankAB`, a
transfer of 200 from "A" to "B" whose debit UPDATE fails after the
credit UPDATE has committed returns an error, yet afterwards "B"'s
stored balance is 300 — not its pre-transfer value 100 — while "A"
keeps 500.  The partially applied transfer persists and is observable
through `fetch_account`, contradicting the claim that neither balance
change is visible after such a failure: the two UPDATE statements
auto-commit independently, with no enclosing transaction or rollback. -/
theorem transfer_debit_fault_keeps_credit :
    transferF ⟨false, true⟩ bankAB "200" "111111" "A" "B"
      = (⟨[⟨1, "A", "111111", 500⟩, ⟨2, "B", "222222", 300⟩], 3⟩, .err .queryReturnedNoRows)
    ∧ fetch_account bankAB "B" = .ok ⟨2, "B", 100, "222222"⟩
    ∧ fetch_account (transferF ⟨false, true⟩ bankAB "200" "111111" "A" "B").1 "B"
        = .ok ⟨2, "B", 300, "222222"⟩ := by
  refine ⟨by decide, by decide, by decide⟩

/-- Claim C3, counterexample: deposit on account "A" of `bankAB` with
the wrong pin "999999" returns unit success (`Ok(())` after printing a
warning), not an `InvalidCredentials` error; the store is unchanged. -/
theorem deposit_wrong_pin_returns_ok :
    deposit bankAB "50" "999999" "A" = (bankAB, .ok ()) := by decide

/-- Claim C3 (amended): a mutating call against an existing account
with a wrong PIN leaves the store — hence the account's balance and
PIN — unchanged; `transfer` returns an error, while `deposit`,
`withdraw` and `delete_account` print a warning and return unit
success rather than an error. -/
theorem wrong_pin_leaves_store_unchanged (b : Bank) (amount pin acct other : String) (row : Row)
    (hrow : firstRow b acct = some row) (hpin : row.pin ≠ pin) :
    deposit b amount pin acct = (b, .ok ())
    ∧ withdraw b amount pin acct = (b, .ok ())
    ∧ delete_account b acct pin = (b, .ok ())
    ∧ (transferF noFaults b amount pin acct other).1 = b
    ∧ (transferF noFaults b amount pin acct other).2.isErr = true := by
  have hbe : (row.pin == pin) = false := by simp [hpin]
  have hdep : deposit b amount pin acct = (b, .ok ()) := by
    unfold deposit
    rw [hrow]
    dsimp only
    rw [hbe]
    rfl
  have hwd : withdraw b amount pin acct = (b, .ok ()) := by
    unfold withdraw
    rw [hrow]
    dsimp only
    rw [hbe]
    rfl
  have hdel : delete_account b acct pin = (b, .ok ()) := by
    unfold delete_account
    rw [hrow]
    dsimp only
    rw [hbe]
    rfl
  have htr : (transferF noFaults b amount pin acct other).1 = b
      ∧ (transferF noFaults b amount pin acct other).2.isErr = true := by
    unfold transferF
    by_cases hot : (acct == other) = true
    · rw [if_pos hot]
      exact ⟨rfl, rfl⟩
    · rw [if_neg hot]
      cases hf : fetch_account b acct with
      | error e => exact ⟨rfl, rfl⟩
      | ok origin =>
        obtain ⟨r, hr, h0, hacc⟩ := fetch_account_ok hf
        rw [hrow] at hr
        have hpe : (origin.pin == pin) = false := by
          rw [hacc]
          dsimp only
          rw [Option.some.injEq] at hr
          rw [← hr]
          exact hbe
        dsimp only
        cases hg : fetch_account b other with
        | error e => exact ⟨rfl, rfl⟩
        | ok target =>
          dsimp only
          rw [hpe]
          exact ⟨rfl, rfl⟩
  exact ⟨hdep, hwd, hdel, htr.1, htr.2⟩

/-- Claim C4, counterexample: with the correct pin, a withdrawal of
1000 from account "A" of `bankAB` (balance 500) returns unit success
(`Ok(())` after printing a warning), not an `InsufficientFunds` error;
the balance stays 500. -/
theorem withdraw_insufficient_returns_ok :
    withdraw bankAB "1000" "111111" "A" = (bankAB, .ok ()) := by decide

/-- Claim C4 (amended): withdraw on an existing account with the
correct PIN and a numeric amount: if the amount exceeds the stored
balance the balance is unchanged and the call returns unit success
(the failure is only printed), not an `InsufficientFunds` error;
otherwise the stored balance becomes `balance - amount` and the call
again returns unit success, printing — not returning — the updated
balance. -/
theorem withdraw_correct_pin_behavior (b : Bank) (amount pin acct : String) (row : Row) (n a : Nat)
    (hrow : firstRow b acct = some row) (hpin : row.pin = pin)
    (hbal : row.balance = (n : Int)) (hamt : parseU64 amount = some a) :
    withdraw b amount pin acct =
      if a > n then (b, .ok ())
      else (updateRows b acct (fun bal => bal - (a : Int)), .ok ()) := by
  unfold withdraw
  rw [hrow]
  dsimp only
  rw [if_pos (show (row.pin == pin) = true by simp [hpin])]
  unfold readU64
  rw [hbal, if_pos (by positivity), hamt]
  dsimp only
  rw [Int.toNat_ofNat]
  by_cases hgt : a > n
  · rw [if_pos hgt, if_pos hgt]
  · rw [if_neg hgt, if_neg hgt]
    rw [firstRow_updateRows, hrow]
    dsimp only [Option.map]
    rw [if_pos (show (row.account_number == acct) = true by simp [firstRow_number hrow])]
    dsimp only
    rw [hbal]
    rw [if_pos (show (0 : Int) ≤ (n : Int) - (a : Int) by omega)]

/-- Claim C5, counterexample: deposits of the non-numeric amount "abc"
and of the negative amount "-100" into account "A" of `bankAB`, with
the correct pin, both succeed instead of failing with `InvalidAmount`:
"abc" coerces to 0 (a silent no-op), and "-100" lowers the stored
balance from 500 to 400. -/
theorem deposit_unvalidated_amount_observed :
    deposit bankAB "abc" "111111" "A" = (bankAB, .ok ())
    ∧ deposit bankAB "-100" "111111" "A"
        = (⟨[⟨1, "A", "111111", 400⟩, ⟨2, "B", "222222", 100⟩], 3⟩, .ok ()) := by
  refine ⟨by decide, by decide⟩

/-- Claim C5 (amended): deposit performs no validation of the amount
and never produces an `InvalidAmount` error.  The store is accessed
first (the pin SELECT), then the raw amount string is bound into the
balance UPDATE, where SQLite's text-to-integer coercion applies: a
non-numeric string coerces to 0 and a negative numeric string
decreases the balance; the call reports success. -/
theorem deposit_skips_amount_validation (b : Bank) (amount pin acct : String) (row : Row)
    (hrow : firstRow b acct = some row) (hpin : row.pin = pin)
    (hnn : 0 ≤ row.balance + sqliteTextToInt amount) :
    deposit b amount pin acct
      = (updateRows b acct (fun bal => bal + sqliteTextToInt amount), .ok ()) :=
  deposit_correct_pin b amount pin acct row hrow hpin hnn

/-- Claim C6: a transfer whose origin equals its target is rejected at
once with the program's error value (`QueryReturnedNoRows`, its
rendering of `SameAccount`), for every store state, amount, pin and
fault pattern, and the store is returned untouched: the check precedes
every fetch and every mutation, so balances and PINs are irrelevant. -/
theorem transfer_same_account_rejected (fl : Faults) (b : Bank) (amount pin acct : String) :
    transferF fl b amount pin acct acct = (b, .err .queryReturnedNoRows) := by
  unfold transferF
  rw [if_pos (by simp)]

/-- Claim C7, counterexample: account "A" of `bankBig` holds the
largest representable store balance (`i64::MAX`); depositing "1" with
the correct pin is not rejected with an `Overflow` error — the sum is
applied and success reported (the model treats the store's integer
arithmetic as exact; real SQLite would silently switch the value to
floating point, likewise without an `Overflow` error, and likewise
changing the stored balance). -/
theorem deposit_past_range_not_rejected :
    deposit bankBig "1" "111111" "A"
      = (⟨[⟨1, "A", "111111", 9223372036854775808⟩], 2⟩, .ok ()) := by decide

/-- Claim C7 (amended): deposit performs no overflow check and has no
`Overflow` error: with the correct PIN a numeric amount is added to
the stored balance unconditionally, whatever the sum. -/
theorem deposit_has_no_overflow_check (b : Bank) (amount pin acct : String) (row : Row) (n a : Nat)
    (hrow : firstRow b acct = some row) (hpin : row.pin = pin)
    (hbal : row.balance = (n : Int)) (hamt : parseU64 amount = some a) :
    deposit b amount pin acct = (updateRows b acct (fun bal => bal + (a : Int)), .ok ()) := by
  have hco := parseU64_eq_coerce hamt
  have hd := deposit_correct_pin b amount pin acct row hrow hpin (by rw [hco, hbal]; positivity)
  simpa only [hco] using hd

/-- Claim C8: deleting an existing account with the correct PIN
succeeds, removes every matching row, and a subsequent fetch of that
account number fails with the program's not-found error
(`QueryReturnedNoRows`). -/
theorem delete_then_fetch_not_found (b : Bank) (acct pin : String) (row : Row)
    (hrow : firstRow b acct = some row) (hpin : row.pin = pin) :
    delete_account b acct pin = (deleteRows b acct, .ok ())
    ∧ fetch_account (delete_account b acct pin).1 acct = .error .queryReturnedNoRows := by
  have h1 : delete_account b acct pin = (deleteRows b acct, .ok ()) := by
    unfold delete_account
    rw [hrow]
    dsimp only
    rw [if_pos (show (row.pin == pin) = true by simp [hpin])]
  refine ⟨h1, ?_⟩
  rw [h1]
  unfold fetch_account
  rw [firstRow_deleteRows]

/-- Claim C9: `create_account` returns an `Account` carrying the given
initial balance, the supplied (generated) account number, and a PIN of
exactly 6 decimal digits, and inserts exactly that record — account
number, pin and balance, with the store-assigned id — as a new row. -/
theorem create_account_spec (rng : Fin 6 → Fin 10) (data : String) (balance : Nat) (b : Bank) :
    (create_account rng data balance b).2.balance = balance
    ∧ (create_account rng data balance b).2.account_number = data
    ∧ (create_account rng data balance b).2.pin = genPin rng
    ∧ (genPin rng).length = 6
    ∧ (genPin rng).data.all Char.isDigit = true
    ∧ (create_account rng data balance b).1.rows
        = b.rows ++ [⟨(create_account rng data balance b).2.id, data, genPin rng, (balance : Int)⟩] :=
  ⟨rfl, rfl, rfl, genPin_length rng, genPin_digits rng, rfl⟩

/-- Claim C10: `withdraw` is not total over amount strings once
authentication succeeds: with the existing account "A" of `bankAB`,
its correct pin, and the non-numeric amount "1oo", the call panics via
`expect` on the failed `u64` parse instead of returning a result. -/
theorem withdraw_panics_on_nonnumeric_amount :
    withdraw bankAB "1oo" "111111" "A"
      = (bankAB, .panicked "Not able to parse string to u64") := by decide

/-- Witness for `wrong_pin_leaves_store_unchanged` at a concrete input:
account "A" of `bankAB` with the wrong pin "000000". -/
theorem wrong_pin_leaves_store_unchanged_witness :
    deposit bankAB "50" "000000" "A" = (bankAB, .ok ())
    ∧ withdraw bankAB "50" "000000" "A" = (bankAB, .ok ())
    ∧ delete_account bankAB "A" "000000" = (bankAB, .ok ())
    ∧ (transferF noFaults bankAB "50" "000000" "A" "B").1 = bankAB
    ∧ (transferF noFaults bankAB "50" "000000" "A" "B").2.isErr = true :=
  wrong_pin_leaves_store_unchanged bankAB "50" "000000" "A" "B" ⟨1, "A", "111111", 500⟩
    (by decide) (by decide)

/-- Witness for `withdraw_correct_pin_behavior` at a concrete input:
withdrawing 200 from account "A" of `bankAB` (balance 500). -/
theorem withdraw_correct_pin_behavior_witness :
    withdraw bankAB "200" "111111" "A" =
      if 200 > 500 then (bankAB, .ok ())
      else (updateRows bankAB "A" (fun bal => bal - (200 : Int)), .ok ()) :=
  withdraw_correct_pin_behavior bankAB "200" "111111" "A" ⟨1, "A", "111111", 500⟩ 500 200
    (by decide) (by decide) (by decide) (by decide)

/-- Witness for `deposit_skips_amount_validation` at a concrete input:
the non-numeric amount "abc" deposited into account "A" of `bankAB`. -/
theorem deposit_skips_amount_validation_witness :
    deposit bankAB "abc" "111111" "A"
      = (updateRows bankAB "A" (fun bal => bal + sqliteTextToInt "abc"), .ok ()) :=
  deposit_skips_amount_validation bankAB "abc" "111111" "A" ⟨1, "A", "111111", 500⟩
    (by decide) (by decide) (by decide)

/-- Witness for `deposit_has_no_overflow_check` at a concrete input:
depositing "1" into the `i64::MAX` balance of `bankBig`. -/
theorem deposit_has_no_overflow_check_witness :
    deposit bankBig "1" "111111" "A"
      = (updateRows bankBig "A" (fun bal => bal + (1 : Int)), .ok ()) :=
  deposit_has_no_overflow_check bankBig "1" "111111" "A"
    ⟨1, "A", "111111", 9223372036854775807⟩ 9223372036854775807 1
    (by decide) (by decide) (by decide) (by decide)

lemma pair_err_ne_ok {α : Type} {b b' : Bank} {e : RusqliteError} {x : α} :
    ((b, Outcome.err e) : Bank × Outcome α) ≠ (b', Outcome.ok x) := by
  intro hc
  rw [Prod.mk.injEq] at hc
  exact Outcome.noConfusion hc.2

/-- Refetching the origin after the two transfer UPDATEs: its first row
is the old one with the amount debited. -/
lemma fetch_origin_after_updates {b : Bank} {o t : String} {ro : Row} (amt : Nat)
    (hro : firstRow b o = some ro) (hne : o ≠ t)
    (hle : (amt : Int) ≤ ro.balance) :
    fetch_account (updateRows (updateRows b t (fun bal => bal + (amt : Int))) o
        (fun bal => bal - (amt : Int))) o
      = .ok ⟨ro.id, o, (ro.balance - (amt : Int)).toNat, ro.pin⟩ := by
  have hnum := firstRow_number hro
  have h1 : firstRow (updateRows b t (fun bal => bal + (amt : Int))) o = some ro := by
    rw [firstRow_updateRows, hro]
    dsimp only [Option.map]
    rw [if_neg (by simp [hnum, hne])]
  have h2 : firstRow (updateRows (updateRows b t (fun bal => bal + (amt : Int))) o
      (fun bal => bal - (amt : Int))) o
      = some ⟨ro.id, ro.account_number, ro.pin, ro.balance - (amt : Int)⟩ := by
    rw [firstRow_updateRows, h1]
    dsimp only [Option.map]
    rw [if_pos (by simp [hnum])]
  have h3 := fetch_account_some h2 (by dsimp only; omega)
  simpa using h3

/-- Refetching the target after the two transfer UPDATEs: its first row
is the old one with the amount credited. -/
lemma fetch_target_after_updates {b : Bank} {o t : String} {rt : Row} (amt : Nat)
    (hrt : firstRow b t = some rt) (hne : o ≠ t)
    (h0 : 0 ≤ rt.balance) :
    fetch_account (updateRows (updateRows b t (fun bal => bal + (amt : Int))) o
        (fun bal => bal - (amt : Int))) t
      = .ok ⟨rt.id, t, (rt.balance + (amt : Int)).toNat, rt.pin⟩ := by
  have hnum := firstRow_number hrt
  have h1 : firstRow (updateRows b t (fun bal => bal + (amt : Int))) t
      = some ⟨rt.id, rt.account_number, rt.pin, rt.balance + (amt : Int)⟩ := by
    rw [firstRow_updateRows, hrt]
    dsimp only [Option.map]
    rw [if_pos (by simp [hnum])]
  have h2 : firstRow (updateRows (updateRows b t (fun bal => bal + (amt : Int))) o
      (fun bal => bal - (amt : Int))) t
      = some ⟨rt.id, rt.account_number, rt.pin, rt.balance + (amt : Int)⟩ := by
    rw [firstRow_updateRows, h1]
    dsimp only [Option.map]
    rw [if_neg (by simp [hnum]; exact Ne.symm hne)]
  have h3 := fetch_account_some h2 (by dsimp only; omega)
  simpa using h3

/-- Claim C2: for every successful transfer of a valid amount between
two distinct existing accounts, the sum of the fetched post-transfer
balances of origin and target equals the sum of their fetched
pre-transfer balances — money is conserved. -/
theorem transfer_conservation (b : Bank) (amount pin o t : String)
    (o0 t0 oA tA : Account) (b' : Bank)
    (ho : fetch_account b o = .ok o0)
    (ht : fetch_account b t = .ok t0)
    (htr : transfer b amount pin o t = (b', Outcome.ok (oA, tA))) :
    oA.balance + tA.balance = o0.balance + t0.balance := by
  obtain ⟨ro, hro, h0o, hoeq⟩ := fetch_account_ok ho
  obtain ⟨rt, hrt, h0t, hteq⟩ := fetch_account_ok ht
  unfold transfer transferF at htr
  by_cases hot : (o == t) = true
  · rw [if_pos hot] at htr
    exact absurd htr pair_err_ne_ok
  · rw [if_neg hot] at htr
    have hne : o ≠ t := by simpa using hot
    rw [ho] at htr
    dsimp only at htr
    rw [ht] at htr
    dsimp only at htr
    by_cases hpin : (o0.pin == pin) = true
    · rw [if_pos hpin] at htr
      cases hp : parseU64 amount with
      | none =>
        rw [hp] at htr
        exact absurd htr pair_err_ne_ok
      | some amt =>
        rw [hp] at htr
        dsimp only at htr
        by_cases hgt : amt > o0.balance
        · rw [if_pos hgt] at htr
          exact absurd htr pair_err_ne_ok
        · rw [if_neg hgt] at htr
          rw [if_neg (show ¬(noFaults.creditFails = true) from fun hc => Bool.noConfusion hc)] at htr
          rw [if_neg (show ¬(noFaults.debitFails = true) from fun hc => Bool.noConfusion hc)] at htr
          have ho_num : o0.account_number = o := by rw [hoeq]
          have ht_num : t0.account_number = t := by rw [hteq]
          rw [ho_num, ht_num] at htr
          rw [hoeq] at hgt
          dsimp only at hgt
          have hle : (amt : Int) ≤ ro.balance := by omega
          rw [fetch_origin_after_updates amt hro hne hle] at htr
          dsimp only at htr
          rw [fetch_target_after_updates amt hrt hne h0t] at htr
          dsimp only at htr
          simp only [Prod.mk.injEq, Outcome.ok.injEq] at htr
          obtain ⟨-, hOA, hTA⟩ := htr
          rw [← hOA, ← hTA, hoeq, hteq]
          dsimp only
          omega
    · rw [if_neg hpin] at htr
      exact absurd htr pair_err_ne_ok

/-- Witness for `transfer_conservation` at a concrete input: the
successful transfer of 200 from "A" (500) to "B" (100) in `bankAB`
ends with balances 300 and 300, preserving the sum 600. -/
theorem transfer_conservation_witness : (300 : Nat) + 300 = 500 + 100 :=
  transfer_conservation bankAB "200" "111111" "A" "B"
    ⟨1, "A", 500, "111111"⟩ ⟨2, "B", 100, "222222"⟩
    ⟨1, "A", 300, "111111"⟩ ⟨2, "B", 300, "222222"⟩
    ⟨[⟨1, "A", "111111", 300⟩, ⟨2, "B", "222222", 300⟩], 3⟩
    (by decide) (by decide) (by decide)

/-- Witness for `delete_then_fetch_not_found` at a concrete input:
deleting account "A" of `bankAB` with its correct pin. -/
theorem delete_then_fetch_not_found_witness :
    delete_account bankAB "A" "111111" = (deleteRows bankAB "A", .ok ())
    ∧ fetch_account (delete_account bankAB "A" "111111").1 "A" = .error .queryReturnedNoRows :=
  delete_then_fetch_not_found bankAB "A" "111111" ⟨1, "A", "111111", 500⟩
    (by decide) (by decide)

end Banking
